import Mathlib

/-!
Verification development for a browser-based STL model viewer.

The repository contains three variants of the same script:
* `main.js`, first half  — per-item list controls, a persistent `userData.visible`
  flag per mesh, and raw-offset clipping planes (namespace `V1` below);
* `main.js`, second half — static controls, strict single-visibility selection,
  and clipping planes whose offset is adjusted by the selected mesh's
  bounding-box center (namespace `V2` below);
* the commented "3D Medical Viewer Core Script" — static controls,
  single-visibility selection, clipping planes built from the slider value via
  `setFromNormalAndCoplanarPoint`, and re-initialised sliders/planes on upload
  (namespace `V0` below).

Numbers are modelled as exact rationals.  DOM-only effects (icons, CSS classes,
tooltip) are outside the model; every mutation of the mesh registry, the
selection, the clipping configuration and the slicing sliders is modelled.
-/

namespace ModelViewer

/-- A 3-component vector, as used by `THREE.Vector3`. -/
structure Vec3 where
  x : ℚ
  y : ℚ
  z : ℚ
deriving DecidableEq

/-- Dot product of two vectors (`THREE.Vector3.dot`). -/
def dot (a b : Vec3) : ℚ := a.x * b.x + a.y * b.y + a.z * b.z

/-- A plane `normal · p + constant = 0`, as in `THREE.Plane(normal, constant)`. -/
structure Plane where
  normal : Vec3
  constant : ℚ
deriving DecidableEq

/-- `THREE.Plane().setFromNormalAndCoplanarPoint(n, p)`: keeps the given normal
and sets `constant := -p.dot(n)`. -/
def setFromNormalAndCoplanarPoint (n p : Vec3) : Plane :=
  { normal := n, constant := - dot p n }

/-- An axis-aligned bounding box (`THREE.Box3`). -/
structure Box3 where
  min : Vec3
  max : Vec3
deriving DecidableEq

/-- `THREE.Box3.union`: componentwise min of minima and max of maxima. -/
def boxUnion (a b : Box3) : Box3 :=
  { min := ⟨Min.min a.min.x b.min.x, Min.min a.min.y b.min.y, Min.min a.min.z b.min.z⟩,
    max := ⟨Max.max a.max.x b.max.x, Max.max a.max.y b.max.y, Max.max a.max.z b.max.z⟩ }

/-- `THREE.Box3.getCenter`: midpoint of the two corners. -/
def boxCenter (b : Box3) : Vec3 :=
  ⟨(b.min.x + b.max.x) / 2, (b.min.y + b.max.y) / 2, (b.min.z + b.max.z) / 2⟩

/-- `THREE.Box3.getSize`: componentwise `max - min`. -/
def boxSize (b : Box3) : Vec3 :=
  ⟨b.max.x - b.min.x, b.max.y - b.min.y, b.max.z - b.min.z⟩

/-- A box is well formed when each minimum is at most the matching maximum;
this is what `Box3.setFromObject` produces for a mesh with vertices. -/
abbrev wfBox (b : Box3) : Prop :=
  b.min.x ≤ b.max.x ∧ b.min.y ≤ b.max.y ∧ b.min.z ≤ b.max.z

/-- The fields of `THREE.MeshPhongMaterial` the scripts read or write. -/
structure Material where
  color : ℕ
  shininess : ℚ
  transparent : Bool
  opacity : ℚ
  doubleSided : Bool
  clippingPlanes : List Plane
  needsUpdate : Bool
deriving DecidableEq

/-- The fields of a `THREE.Mesh` the scripts read or write.  `bbox` is the box
`new THREE.Box3().setFromObject(mesh)` computes.  `userDataVisible` models
`mesh.userData.visible`; it is uninitialised (`undefined`) in the source, and
every use coerces it to a boolean (`?:` assignment, `!` negation), so it is
modelled as `false` until first written. -/
structure Mesh where
  name : String
  bbox : Box3
  visible : Bool
  userDataVisible : Bool
  material : Material
deriving DecidableEq

/-- One element of the `meshes` array: `{ id, mesh }`, plus the per-item
transparency slider value that the first `main.js` variant also stores
(`{ id, mesh, slider }`); entries pushed without a slider carry `none`. -/
structure Entry where
  id : String
  mesh : Mesh
  slider : Option ℚ
deriving DecidableEq

/-- One axis of the `clipping` record: `{ enabled, plane }`. -/
structure AxisState where
  enabled : Bool
  plane : Plane
deriving DecidableEq

/-- The global `clipping` record with its three axes. -/
structure Clipping where
  x : AxisState
  y : AxisState
  z : AxisState
deriving DecidableEq

/-- The mutable script state: the `meshes` array, `selectedMeshId`
(`null` = `none`), the `clipping` record, and the three DOM slice sliders
`slice-x-pos` / `slice-y-pos` / `slice-z-pos` (read back by the `V0`
recompute). -/
structure State where
  meshes : List Entry
  selectedMeshId : Option String
  clipping : Clipping
  sliderX : ℚ
  sliderY : ℚ
  sliderZ : ℚ
deriving DecidableEq

/-- Camera pose produced by the fit-to-objects routine: `camera.position` and
`controls.target`. -/
structure Camera where
  position : Vec3
  target : Vec3
deriving DecidableEq

/-- Assigning a plane list to an entry's material:
`mat.clippingPlanes = planes; mat.needsUpdate = true`. -/
def setMatPlanes (planes : List Plane) (e : Entry) : Entry :=
  { e with mesh := { e.mesh with material :=
      { e.mesh.material with clippingPlanes := planes, needsUpdate := true } } }

/-- `obj.mesh.material.opacity = value` on an entry. -/
def setMatOpacity (v : ℚ) (e : Entry) : Entry :=
  { e with mesh := { e.mesh with material := { e.mesh.material with opacity := v } } }

/-- `obj.mesh.visible = !obj.mesh.visible` on an entry. -/
def flipVisible (e : Entry) : Entry :=
  { e with mesh := { e.mesh with visible := !e.mesh.visible } }

/-- `meshes.find(m => m.id === id)`. -/
def findEntry (id : String) (l : List Entry) : Option Entry :=
  l.find? (fun e => e.id == id)

/-- Mutating the entry `meshes.find` returned: replace the first entry whose
id matches; leave the list unchanged when there is none. -/
def updateFirst (id : String) (f : Entry → Entry) : List Entry → List Entry
  | [] => []
  | e :: rest => if e.id == id then f e :: rest else e :: updateFirst id f rest

/-- `getActiveClippingPlanes()` (both `main.js` variants): one stored plane per
enabled axis, in X, Y, Z order. -/
def getActiveClippingPlanes (c : Clipping) : List Plane :=
  (if c.x.enabled then [c.x.plane] else []) ++
  (if c.y.enabled then [c.y.plane] else []) ++
  (if c.z.enabled then [c.z.plane] else [])

/-- `activeCliping()` in the commented variant — same body as
`getActiveClippingPlanes`. -/
def activeCliping : Clipping → List Plane := getActiveClippingPlanes

/-- The initial `clipping` value: all axes disabled, planes with the fixed
negative-axis unit normals and constant `0`. -/
def clippingInit : Clipping :=
  { x := ⟨false, ⟨⟨-1, 0, 0⟩, 0⟩⟩,
    y := ⟨false, ⟨⟨0, -1, 0⟩, 0⟩⟩,
    z := ⟨false, ⟨⟨0, 0, -1⟩, 0⟩⟩ }

/-- The three slicing axes. -/
inductive Axis where
  | x
  | y
  | z
deriving DecidableEq

/-- The state change of the `slice-<axis>` checkbox handler:
`clipping[axis].enabled = checked`. -/
def setAxisEnabled (a : Axis) (b : Bool) (c : Clipping) : Clipping :=
  match a with
  | .x => { c with x := { c.x with enabled := b } }
  | .y => { c with y := { c.y with enabled := b } }
  | .z => { c with z := { c.z with enabled := b } }

/-- The state change of the `slice-<axis>-pos` range handler on the clipping
record: `clipping[axis].plane.constant = parseFloat(value)`. -/
def setAxisOffset (a : Axis) (v : ℚ) (c : Clipping) : Clipping :=
  match a with
  | .x => { c with x := { c.x with plane := { c.x.plane with constant := v } } }
  | .y => { c with y := { c.y with plane := { c.y.plane with constant := v } } }
  | .z => { c with z := { c.z with plane := { c.z.plane with constant := v } } }

/-- The slider position the same range event leaves in the DOM element. -/
def setSlider (a : Axis) (v : ℚ) (s : State) : State :=
  match a with
  | .x => { s with sliderX := v }
  | .y => { s with sliderY := v }
  | .z => { s with sliderZ := v }

/-- Union bounding box of a non-empty registry, as accumulated by
`meshes.forEach(o => bbox.union(new THREE.Box3().setFromObject(o.mesh)))`. -/
def unionBBox (e : Entry) (rest : List Entry) : Box3 :=
  (rest.map (fun o => o.mesh.bbox)).foldl boxUnion e.mesh.bbox

/-- `Math.max(size.x, size.y, size.z)` of a box. -/
def maxDim (b : Box3) : ℚ :=
  Max.max (boxSize b).x (Max.max (boxSize b).y (boxSize b).z)

/-- `fitCameraToObjects(margin)` / `cameraPosition(margin)` — identical in all
variants.  `tanHalfFov` stands for `Math.tan(camera.fov/2 in radians)`, the
only floating-point transcendental involved; it is kept as a parameter. -/
def fitCameraToObjects (tanHalfFov margin : ℚ) (meshes : List Entry) : Camera :=
  match meshes with
  | [] => { position := ⟨0, 0, 250⟩, target := ⟨0, 0, 0⟩ }
  | e :: rest =>
    let bbox := unionBBox e rest
    let center := boxCenter bbox
    let cameraZ := Max.max (|maxDim bbox / 2 / tanHalfFov| * margin) 50
    { position := ⟨center.x, center.y, center.z + cameraZ⟩, target := center }

/-- The initial script state: empty registry, no selection, initial clipping
configuration (slider start positions are irrelevant to the claims; zero is
used). -/
def initState : State :=
  { meshes := [], selectedMeshId := none, clipping := clippingInit,
    sliderX := 0, sliderY := 0, sliderZ := 0 }

namespace V1

/-!  First `main.js` variant (per-item list controls). -/

/-- `updateClippingPlanes()` of the first variant: assign the raw active plane
list to the selected mesh's material. -/
def updateClippingPlanes (s : State) : State :=
  match s.selectedMeshId with
  | none => s
  | some sel =>
    match findEntry sel s.meshes with
    | none => s
    | some _ =>
      { s with meshes :=
          updateFirst sel (setMatPlanes (getActiveClippingPlanes s.clipping)) s.meshes }

/-- `selectMesh(id)` of the first variant: each entry's rendered visibility
becomes its persistent `userData.visible` flag when it matches the id and
`false` otherwise; sliders are refreshed from the material opacity; the id is
recorded and clipping is re-applied. -/
def selectMesh (id : String) (s : State) : State :=
  updateClippingPlanes
    { s with
      meshes := s.meshes.map (fun o =>
        { o with
          mesh := { o.mesh with visible := o.id == id && o.mesh.userDataVisible },
          slider := o.slider.map (fun _ => o.mesh.material.opacity) }),
      selectedMeshId := some id }

/-- The per-item visibility button of the first variant.  The handler closure
captures the one mesh whose list item carries the button; with unique ids that
is the entry matching `id`.  It always flips the persistent
`userData.visible` flag and flips the rendered flag only when this mesh is the
current selection. -/
def visBtnClick (id : String) (s : State) : State :=
  { s with meshes := s.meshes.map (fun o =>
      if o.id == id then
        let m1 := { o.mesh with userDataVisible := !o.mesh.userDataVisible }
        let m2 := if s.selectedMeshId == some id then { m1 with visible := !m1.visible }
                  else m1
        { o with mesh := m2 }
      else o) }

/-- The material `handleFileUpload` builds (opaque, double-sided, mid-gray,
clipping planes captured from the current configuration). -/
def newMaterial (c : Clipping) : Material :=
  { color := 0xc8cfd6, shininess := 60, transparent := true, opacity := 1,
    doubleSided := true, clippingPlanes := getActiveClippingPlanes c,
    needsUpdate := false }

/-- `addMeshToList(mesh)` of the first variant: hides the mesh and pushes
`{ id, mesh, slider }` with the slider initialised to
`mesh.material.opacity || 1`. -/
def addMeshToList (id : String) (m : Mesh) (s : State) : State :=
  { s with meshes := s.meshes ++
      [{ id := id,
         mesh := { m with visible := false },
         slider := some (if m.material.opacity == 0 then 1 else m.material.opacity) }] }

/-- The registration performed by `handleFileUpload` once the STL is decoded:
build the material and mesh, run `addMeshToList` (which hides the mesh and
pushes an entry), then push `{ id, mesh }` once more in the caller — the same
mesh object, already hidden.  The generated id and decoded geometry data are
parameters. -/
def handleFileUpload (id name : String) (bbox : Box3) (s : State) : State :=
  let mesh : Mesh :=
    { name := name, bbox := bbox, visible := true, userDataVisible := false,
      material := newMaterial s.clipping }
  let s1 := addMeshToList id mesh s
  { s1 with meshes := s1.meshes ++
      [{ id := id, mesh := { mesh with visible := false }, slider := none }] }

end V1

namespace V2

/-!  Second `main.js` variant (static controls, center-adjusted clipping). -/

/-- The plane list the second variant's `updateClippingPlanes` builds: one
fresh plane per enabled axis whose constant is the stored constant minus the
selected mesh's bounding-box center coordinate on that axis. -/
def planesFor (c : Clipping) (center : Vec3) : List Plane :=
  (if c.x.enabled then [⟨⟨-1, 0, 0⟩, c.x.plane.constant - center.x⟩] else []) ++
  (if c.y.enabled then [⟨⟨0, -1, 0⟩, c.y.plane.constant - center.y⟩] else []) ++
  (if c.z.enabled then [⟨⟨0, 0, -1⟩, c.z.plane.constant - center.z⟩] else [])

/-- `updateClippingPlanes()` of the second variant: no-op without a found
selection, otherwise assign the center-adjusted planes to the selected mesh's
material. -/
def updateClippingPlanes (s : State) : State :=
  match s.selectedMeshId with
  | none => s
  | some sel =>
    match findEntry sel s.meshes with
    | none => s
    | some obj =>
      let planes := planesFor s.clipping (boxCenter obj.mesh.bbox)
      { s with meshes := updateFirst sel (setMatPlanes planes) s.meshes }

/-- `selectMesh(id)` of the second variant: strict single visibility
(`o.mesh.visible = (o.id === id)`), record the id, re-apply clipping. -/
def selectMesh (id : String) (s : State) : State :=
  updateClippingPlanes
    { s with
      meshes := s.meshes.map (fun o =>
        { o with mesh := { o.mesh with visible := o.id == id } }),
      selectedMeshId := some id }

/-- The static visibility button: no-op without a selection, otherwise flip
the selected mesh's rendered flag. -/
def visBtnClick (s : State) : State :=
  match s.selectedMeshId with
  | none => s
  | some sel =>
    match findEntry sel s.meshes with
    | none => s
    | some _ =>
      { s with meshes := updateFirst sel flipVisible s.meshes }

/-- `setOpacityForSelected(value)`: no-op without a selection, otherwise write
the value into the selected mesh's material opacity (no clamping). -/
def setOpacityForSelected (v : ℚ) (s : State) : State :=
  match s.selectedMeshId with
  | none => s
  | some sel =>
    match findEntry sel s.meshes with
    | none => s
    | some _ =>
      { s with meshes := updateFirst sel (setMatOpacity v) s.meshes }

end V2

namespace V0

/-!  The commented "3D Medical Viewer Core Script" variant. -/

/-- The X plane the recompute builds for a target mesh: normal `(-1,0,0)`
through the point `(sliderX, center.y, center.z)`. -/
def planeX (sx : ℚ) (center : Vec3) : Plane :=
  setFromNormalAndCoplanarPoint ⟨-1, 0, 0⟩ ⟨sx, center.y, center.z⟩

/-- The Y plane: normal `(0,-1,0)` through `(center.x, sliderY, center.z)`. -/
def planeY (sy : ℚ) (center : Vec3) : Plane :=
  setFromNormalAndCoplanarPoint ⟨0, -1, 0⟩ ⟨center.x, sy, center.z⟩

/-- The Z plane: normal `(0,0,-1)` through `(center.x, center.y, sliderZ)`. -/
def planeZ (sz : ℚ) (center : Vec3) : Plane :=
  setFromNormalAndCoplanarPoint ⟨0, 0, -1⟩ ⟨center.x, center.y, sz⟩

/-- The plane list pushed for one target mesh: one plane per enabled axis,
built from the slider values and the target's bounding-box center. -/
def planesFor (c : Clipping) (sx sy sz : ℚ) (center : Vec3) : List Plane :=
  (if c.x.enabled then [planeX sx center] else []) ++
  (if c.y.enabled then [planeY sy center] else []) ++
  (if c.z.enabled then [planeZ sz center] else [])

/-- The write-back `clipping[axis].plane = plane` the same loop body performs
for each enabled axis. -/
def clipAfter (c : Clipping) (sx sy sz : ℚ) (center : Vec3) : Clipping :=
  { x := { c.x with plane := if c.x.enabled then planeX sx center else c.x.plane },
    y := { c.y with plane := if c.y.enabled then planeY sy center else c.y.plane },
    z := { c.z with plane := if c.z.enabled then planeZ sz center else c.z.plane } }

/-- The `targets.forEach` loop over all meshes (the no-selection branch):
each target's material receives its plane list, and the global clipping record
keeps the planes written for the last target.  The enabled flags are never
modified inside the loop, so threading the updated record through is faithful
to the source. -/
def recomputeAll (c : Clipping) (sx sy sz : ℚ) : List Entry → List Entry × Clipping
  | [] => ([], c)
  | e :: rest =>
    let center := boxCenter e.mesh.bbox
    let e' := setMatPlanes (planesFor c sx sy sz center) e
    let res := recomputeAll (clipAfter c sx sy sz center) sx sy sz rest
    (e' :: res.1, res.2)

/-- `updateClippingPlanes()` of the commented variant: targets are the
selected entry when one is recorded (none found ⇒ no-op), or every entry when
no selection is recorded (empty registry ⇒ no-op). -/
def updateClippingPlanes (s : State) : State :=
  match s.selectedMeshId with
  | some sel =>
    match findEntry sel s.meshes with
    | none => s
    | some obj =>
      let center := boxCenter obj.mesh.bbox
      { s with
        meshes :=
          updateFirst sel (setMatPlanes (planesFor s.clipping s.sliderX s.sliderY s.sliderZ center))
            s.meshes,
        clipping := clipAfter s.clipping s.sliderX s.sliderY s.sliderZ center }
  | none =>
    match s.meshes with
    | [] => s
    | _ =>
      let res := recomputeAll s.clipping s.sliderX s.sliderY s.sliderZ s.meshes
      { s with meshes := res.1, clipping := res.2 }

/-- `selectMesh(id)` of the commented variant: strict single visibility,
record the id, re-apply clipping. -/
def selectMesh (id : String) (s : State) : State :=
  updateClippingPlanes
    { s with
      meshes := s.meshes.map (fun o =>
        { o with mesh := { o.mesh with visible := o.id == id } }),
      selectedMeshId := some id }

/-- `addMeshToList(mesh)` of the commented variant: hide the mesh and push a
single `{ id, mesh }` entry. -/
def addMeshToList (id : String) (m : Mesh) (s : State) : State :=
  { s with meshes := s.meshes ++
      [{ id := id, mesh := { m with visible := false }, slider := none }] }

/-- The upload material of the commented variant — no `clippingPlanes`
property, so the plane list starts empty. -/
def newMaterialNoClip : Material :=
  { color := 0xc8cfd6, shininess := 60, transparent := true, opacity := 1,
    doubleSided := true, clippingPlanes := [], needsUpdate := false }

/-- `rangeEl.value = (max + min) / 2 + (max - min) * 0.25`. -/
def sliderInitValue (lo hi : ℚ) : ℚ := (hi + lo) / 2 + (hi - lo) * (1 / 4)

/-- The registration performed by the commented variant's `handleFileUpload`:
`addMeshToList` (single push), `selectMesh(id)`, then per-axis re-initialise
the slice sliders from the mesh's bounding box and replace each clipping plane
with a fresh plane of fixed negative-axis normal and constant `0`. -/
def handleFileUpload (id name : String) (bbox : Box3) (s : State) : State :=
  let mesh : Mesh :=
    { name := name, bbox := bbox, visible := true, userDataVisible := false,
      material := newMaterialNoClip }
  let s2 := selectMesh id (addMeshToList id mesh s)
  { s2 with
    sliderX := sliderInitValue bbox.min.x bbox.max.x,
    sliderY := sliderInitValue bbox.min.y bbox.max.y,
    sliderZ := sliderInitValue bbox.min.z bbox.max.z,
    clipping :=
      { x := { s2.clipping.x with plane := ⟨⟨-1, 0, 0⟩, 0⟩ },
        y := { s2.clipping.y with plane := ⟨⟨0, -1, 0⟩, 0⟩ },
        z := { s2.clipping.z with plane := ⟨⟨0, 0, -1⟩, 0⟩ } } }

/-- `loadLocalSTL` of the commented variant: material captures
`activeCliping()`, `addMeshToList` pushes once, and the load callback pushes
`{ id, mesh }` a second time. -/
def loadLocalSTL (id name : String) (bbox : Box3) (s : State) : State :=
  let mat : Material :=
    { color := 0xd1d7df, shininess := 60, transparent := true, opacity := 1,
      doubleSided := true, clippingPlanes := activeCliping s.clipping,
      needsUpdate := false }
  let mesh : Mesh :=
    { name := name, bbox := bbox, visible := true, userDataVisible := false,
      material := mat }
  let s1 := addMeshToList id mesh s
  { s1 with meshes := s1.meshes ++
      [{ id := id, mesh := { mesh with visible := false }, slider := none }] }

/-- The static visibility button of the commented variant — same code as the
second `main.js` variant. -/
def visBtnClick : State → State := V2.visBtnClick

/-- `dynamicSelectedOpacity(value)` — same code as `setOpacityForSelected` of
the second `main.js` variant. -/
def dynamicSelectedOpacity : ℚ → State → State := V2.setOpacityForSelected

end V0

/-- The user-triggerable operations of the commented variant, used to state
the fixed-normal invariant over arbitrary interaction sequences. -/
inductive Op where
  | axisEnabled (a : Axis) (b : Bool)
  | axisOffset (a : Axis) (v : ℚ)
  | select (id : String)
  | upload (id name : String) (bbox : Box3)
  | loadLocal (id name : String) (bbox : Box3)
  | toggleVis
  | setOpacity (v : ℚ)
  | recompute

/-- One interaction step: each constructor performs exactly what the
corresponding event handler performs (checkbox and range handlers mutate the
configuration and then call `updateClippingPlanes`). -/
def applyOp (s : State) : Op → State
  | .axisEnabled a b => V0.updateClippingPlanes { s with clipping := setAxisEnabled a b s.clipping }
  | .axisOffset a v =>
      V0.updateClippingPlanes (setSlider a v { s with clipping := setAxisOffset a v s.clipping })
  | .select id => V0.selectMesh id s
  | .upload id name bbox => V0.handleFileUpload id name bbox s
  | .loadLocal id name bbox => V0.loadLocalSTL id name bbox s
  | .toggleVis => V0.visBtnClick s
  | .setOpacity v => V0.dynamicSelectedOpacity v s
  | .recompute => V0.updateClippingPlanes s

/-- Run an interaction sequence from the initial state. -/
def run (ops : List Op) : State := ops.foldl applyOp initState

/-- The invariant of claim C9: the three stored clipping planes keep their
fixed negative-axis unit normals, and every plane ever applied to a material
has one of those normals. -/
def fixedNormals (s : State) : Prop :=
  s.clipping.x.plane.normal = ⟨-1, 0, 0⟩ ∧
  s.clipping.y.plane.normal = ⟨0, -1, 0⟩ ∧
  s.clipping.z.plane.normal = ⟨0, 0, -1⟩ ∧
  ∀ e ∈ s.meshes, ∀ p ∈ e.mesh.material.clippingPlanes,
    p.normal = ⟨-1, 0, 0⟩ ∨ p.normal = ⟨0, -1, 0⟩ ∨ p.normal = ⟨0, 0, -1⟩

/-!  General lemmas about the registry helpers. -/

theorem updateFirst_map_proj {β : Type} (id : String) (f : Entry → Entry) (g : Entry → β)
    (hf : ∀ e, g (f e) = g e) :
    ∀ l : List Entry, (updateFirst id f l).map g = l.map g := by
  intro l
  induction l with
  | nil => rfl
  | cons e rest ih =>
    by_cases h : (e.id == id) = true
    · simp [updateFirst, h, hf]
    · simp [updateFirst, h, ih]

theorem mem_updateFirst (id : String) (f : Entry → Entry) :
    ∀ l : List Entry, ∀ e' ∈ updateFirst id f l, e' ∈ l ∨ ∃ e ∈ l, e' = f e := by
  intro l
  induction l with
  | nil => intro e' h; cases h
  | cons e rest ih =>
    intro e' h'
    by_cases h : (e.id == id) = true
    · simp only [updateFirst, h, if_true, List.mem_cons] at h'
      rcases h' with h' | h'
      · exact Or.inr ⟨e, List.mem_cons_self e rest, h'⟩
      · exact Or.inl (List.mem_cons_of_mem e h')
    · simp only [updateFirst, h, if_false, Bool.false_eq_true, List.mem_cons] at h'
      rcases h' with h' | h'
      · exact Or.inl (h' ▸ List.mem_cons_self e rest)
      · rcases ih e' h' with h2 | ⟨a, ha, hae⟩
        · exact Or.inl (List.mem_cons_of_mem e h2)
        · exact Or.inr ⟨a, List.mem_cons_of_mem e ha, hae⟩

theorem findEntry_eq_none_of_not_mem (id : String) (l : List Entry)
    (h : id ∉ l.map Entry.id) : findEntry id l = none := by
  unfold findEntry
  rw [List.find?_eq_none]
  intro e he hbe
  exact h (List.mem_map.2 ⟨e, he, eq_of_beq hbe⟩)

theorem map_ite_id (id : String) (f : Entry → Entry) (l : List Entry)
    (h : ∀ e ∈ l, (e.id == id) = false) :
    l.map (fun e => if e.id == id then f e else e) = l := by
  have := List.map_congr_left (l := l)
    (f := fun e => if e.id == id then f e else e) (g := fun e => e)
    (fun e he => by simp [h e he])
  simpa using this

theorem updateFirst_eq_map (id : String) (f : Entry → Entry) :
    ∀ l : List Entry, (l.map Entry.id).Nodup →
      updateFirst id f l = l.map (fun e => if e.id == id then f e else e) := by
  intro l
  induction l with
  | nil => intro _; rfl
  | cons e rest ih =>
    intro hnd
    rw [List.map_cons, List.nodup_cons] at hnd
    show (if (e.id == id) = true then f e :: rest else e :: updateFirst id f rest) =
      (if (e.id == id) = true then f e else e) ::
        rest.map (fun a => if a.id == id then f a else a)
    by_cases h : (e.id == id) = true
    · have hid : e.id = id := eq_of_beq h
      have hrest : ∀ a ∈ rest, (a.id == id) = false := by
        intro a ha
        refine beq_eq_false_iff_ne.2 (fun hc => hnd.1 ?_)
        rw [← hid] at hc
        exact hc ▸ List.mem_map_of_mem Entry.id ha
      rw [if_pos h, if_pos h, map_ite_id id f rest hrest]
    · rw [if_neg h, if_neg h, ih hnd.2]

theorem countP_beq_one (id : String) :
    ∀ l : List String, l.Nodup → id ∈ l → l.countP (fun a => a == id) = 1 := by
  intro l
  induction l with
  | nil => intro _ h; cases h
  | cons a rest ih =>
    intro hnd hmem
    rw [List.nodup_cons] at hnd
    rw [List.countP_cons]
    by_cases h : (a == id) = true
    · have ha : a = id := eq_of_beq h
      have hz : rest.countP (fun b => b == id) = 0 := by
        rw [List.countP_eq_zero]
        intro b hb hbeq
        exact hnd.1 (ha ▸ eq_of_beq hbeq ▸ hb)
      simp [hz, h]
    · have hmem' : id ∈ rest := by
        rcases List.mem_cons.1 hmem with h1 | h1
        · exact absurd (beq_iff_eq.2 h1.symm) (by simpa using h)
        · exact h1
      simp [h, ih hnd.2 hmem']

theorem countP_entries (id : String) (l : List Entry) :
    l.countP (fun e => e.id == id) = (l.map Entry.id).countP (fun a => a == id) := by
  rw [List.countP_map]
  rfl

theorem map_fuse {γ : Type} (f : Entry → Entry) (g : Entry → γ) (k : Entry → γ)
    (h : ∀ e, g (f e) = k e) (l : List Entry) : (l.map f).map g = l.map k := by
  rw [List.map_map]
  exact List.map_congr_left (fun e _ => h e)

/-!  Projection lemmas: the recompute routines touch only materials, so every
projection that ignores the material passes through them unchanged; they also
leave the selection in place. -/

theorem v1_updateClip_proj {β : Type} (g : Entry → β)
    (hg : ∀ pl e, g (setMatPlanes pl e) = g e) (s : State) :
    (V1.updateClippingPlanes s).meshes.map g = s.meshes.map g := by
  cases hsel : s.selectedMeshId with
  | none => simp [V1.updateClippingPlanes, hsel]
  | some sel =>
    cases hf : findEntry sel s.meshes with
    | none => simp [V1.updateClippingPlanes, hsel, hf]
    | some o =>
      simp [V1.updateClippingPlanes, hsel, hf, updateFirst_map_proj sel _ g (hg _)]

theorem v1_updateClip_sel (s : State) :
    (V1.updateClippingPlanes s).selectedMeshId = s.selectedMeshId := by
  cases hsel : s.selectedMeshId with
  | none => simp [V1.updateClippingPlanes, hsel]
  | some sel =>
    cases hf : findEntry sel s.meshes with
    | none => simp [V1.updateClippingPlanes, hsel, hf]
    | some o => simp [V1.updateClippingPlanes, hsel, hf]

theorem v2_updateClip_proj {β : Type} (g : Entry → β)
    (hg : ∀ pl e, g (setMatPlanes pl e) = g e) (s : State) :
    (V2.updateClippingPlanes s).meshes.map g = s.meshes.map g := by
  cases hsel : s.selectedMeshId with
  | none => simp [V2.updateClippingPlanes, hsel]
  | some sel =>
    cases hf : findEntry sel s.meshes with
    | none => simp [V2.updateClippingPlanes, hsel, hf]
    | some o =>
      simp [V2.updateClippingPlanes, hsel, hf, updateFirst_map_proj sel _ g (hg _)]

theorem v2_updateClip_sel (s : State) :
    (V2.updateClippingPlanes s).selectedMeshId = s.selectedMeshId := by
  cases hsel : s.selectedMeshId with
  | none => simp [V2.updateClippingPlanes, hsel]
  | some sel =>
    cases hf : findEntry sel s.meshes with
    | none => simp [V2.updateClippingPlanes, hsel, hf]
    | some o => simp [V2.updateClippingPlanes, hsel, hf]

theorem v2_updateClip_clip (s : State) :
    (V2.updateClippingPlanes s).clipping = s.clipping := by
  cases hsel : s.selectedMeshId with
  | none => simp [V2.updateClippingPlanes, hsel]
  | some sel =>
    cases hf : findEntry sel s.meshes with
    | none => simp [V2.updateClippingPlanes, hsel, hf]
    | some o => simp [V2.updateClippingPlanes, hsel, hf]

theorem v0_recomputeAll_proj {β : Type} (g : Entry → β)
    (hg : ∀ pl e, g (setMatPlanes pl e) = g e) (sx sy sz : ℚ) :
    ∀ (l : List Entry) (c : Clipping),
      ((V0.recomputeAll c sx sy sz l).1).map g = l.map g := by
  intro l
  induction l with
  | nil => intro c; rfl
  | cons e rest ih => intro c; simp [V0.recomputeAll, hg, ih]

theorem v0_updateClip_proj {β : Type} (g : Entry → β)
    (hg : ∀ pl e, g (setMatPlanes pl e) = g e) (s : State) :
    (V0.updateClippingPlanes s).meshes.map g = s.meshes.map g := by
  cases hsel : s.selectedMeshId with
  | some sel =>
    cases hf : findEntry sel s.meshes with
    | none => simp [V0.updateClippingPlanes, hsel, hf]
    | some o =>
      simp [V0.updateClippingPlanes, hsel, hf, updateFirst_map_proj sel _ g (hg _)]
  | none =>
    cases hm : s.meshes with
    | nil => simp [V0.updateClippingPlanes, hsel, hm]
    | cons e rest =>
      simp [V0.updateClippingPlanes, hsel, hm,
        v0_recomputeAll_proj g hg s.sliderX s.sliderY s.sliderZ]

theorem v0_updateClip_sel (s : State) :
    (V0.updateClippingPlanes s).selectedMeshId = s.selectedMeshId := by
  cases hsel : s.selectedMeshId with
  | some sel =>
    cases hf : findEntry sel s.meshes with
    | none => simp [V0.updateClippingPlanes, hsel, hf]
    | some o => simp [V0.updateClippingPlanes, hsel, hf]
  | none =>
    cases hm : s.meshes with
    | nil => simp [V0.updateClippingPlanes, hsel, hm]
    | cons e rest => simp [V0.updateClippingPlanes, hsel, hm]

/-!  Concrete fixtures used by counterexamples and witnesses. -/

/-- A symmetric sample bounding box centered at the origin, largest dimension
`20`. -/
def box0 : Box3 := ⟨⟨-10, -10, -10⟩, ⟨10, 10, 10⟩⟩

/-- A sample mesh with the default upload material. -/
def meshA : Mesh :=
  { name := "A", bbox := box0, visible := false, userDataVisible := false,
    material := V1.newMaterial clippingInit }

/-- A registry entry holding `meshA` under id `"a"`. -/
def entryA : Entry := { id := "a", mesh := meshA, slider := none }

/-- A state with one registered mesh and nothing selected. -/
def s0 : State :=
  { meshes := [entryA], selectedMeshId := none, clipping := clippingInit,
    sliderX := 0, sliderY := 0, sliderZ := 0 }

/-- A state with one registered mesh that is currently selected. -/
def sSel : State := { s0 with selectedMeshId := some "a" }

/-- The clipping configuration after enabling axis X and setting its offset
to `5`, with no other axis enabled. -/
def cfgX5 : Clipping := setAxisOffset .x 5 (setAxisEnabled .x true clippingInit)

/-- Claim C1.  The registration path of `main.js` (`handleFileUpload` plus
`addMeshToList`) is claimed to grow the registry by exactly one; the code
pushes the new record twice — once inside `addMeshToList` and once more in
its caller — so a single successful upload grows the registry by two entries
(sharing one id).  Both records are created invisible, as claimed. -/
theorem C1_register_pushes_twice :
    initState.meshes.length = 0 ∧
    (V1.handleFileUpload "obj-1" "model" box0 initState).meshes.length = 2 ∧
    ∀ e ∈ (V1.handleFileUpload "obj-1" "model" box0 initState).meshes,
      e.id = "obj-1" ∧ e.mesh.visible = false := by
  decide

/-- Claim C3.  The plane set built from the clipping configuration contains
exactly one plane per enabled axis (in both recompute variants), zero enabled
axes give the empty set, enabling only axis X with offset `5` gives exactly
one plane whose constant is the configured `5`, and disabling the axis again
gives zero planes. -/
theorem C3_one_plane_per_enabled_axis :
    (∀ c : Clipping, (getActiveClippingPlanes c).length =
      (if c.x.enabled then 1 else 0) + (if c.y.enabled then 1 else 0) +
        (if c.z.enabled then 1 else 0)) ∧
    (∀ (c : Clipping) (center : Vec3), (V2.planesFor c center).length =
      (if c.x.enabled then 1 else 0) + (if c.y.enabled then 1 else 0) +
        (if c.z.enabled then 1 else 0)) ∧
    getActiveClippingPlanes clippingInit = [] ∧
    getActiveClippingPlanes cfgX5 = [{ normal := ⟨-1, 0, 0⟩, constant := 5 }] ∧
    getActiveClippingPlanes (setAxisEnabled .x false cfgX5) = [] := by
  refine ⟨fun c => ?_, fun c center => ?_, by decide, by decide, by decide⟩
  · rcases c with ⟨⟨xe, xp⟩, ⟨ye, yp⟩, ⟨ze, zp⟩⟩
    cases xe <;> cases ye <;> cases ze <;> rfl
  · rcases c with ⟨⟨xe, xp⟩, ⟨ye, yp⟩, ⟨ze, zp⟩⟩
    cases xe <;> cases ye <;> cases ze <;> rfl

/-- A mesh whose bounding box is centered off the origin (center `(10,0,0)`),
used to separate the two clipping computations. -/
def meshOff : Mesh :=
  { name := "offcenter", bbox := ⟨⟨5, -5, -5⟩, ⟨15, 5, 5⟩⟩, visible := true,
    userDataVisible := false, material := V1.newMaterial clippingInit }

/-- A state selecting `meshOff` with axis X enabled at offset `5`. -/
def sOff : State :=
  { meshes := [{ id := "a", mesh := meshOff, slider := none }],
    selectedMeshId := some "a", clipping := cfgX5,
    sliderX := 5, sliderY := 0, sliderZ := 0 }

/-- Claim C5.  The raw-offset plane computation and the center-adjusted one
are not equivalent: with axis X enabled at offset `5` and a selected mesh
whose bounding-box center is `(10,0,0)`, the raw variant applies a plane with
constant `5` while the center-adjusted variant applies a plane with constant
`5 - 10 = -5`; the applied plane sets differ. -/
theorem C5_raw_and_center_adjusted_differ :
    getActiveClippingPlanes sOff.clipping ≠
      V2.planesFor sOff.clipping (boxCenter meshOff.bbox) ∧
    (V1.updateClippingPlanes sOff).meshes.map (fun e => e.mesh.material.clippingPlanes) ≠
      (V2.updateClippingPlanes sOff).meshes.map (fun e => e.mesh.material.clippingPlanes) := by
  constructor
  · simp [sOff, cfgX5, meshOff, boxCenter, setAxisOffset, setAxisEnabled, clippingInit,
      getActiveClippingPlanes, V2.planesFor]
    norm_num
  · simp [V1.updateClippingPlanes, V2.updateClippingPlanes, sOff, cfgX5, meshOff, boxCenter,
      setAxisOffset, setAxisEnabled, clippingInit, getActiveClippingPlanes, V2.planesFor,
      findEntry, List.find?, updateFirst, setMatPlanes, V1.newMaterial]
    norm_num

/-!  No-op shapes of the recomputes and a membership consequence of a failed
find. -/

theorem v2_updateClip_not_found (t : State) (sel : String)
    (hsel : t.selectedMeshId = some sel) (hf : findEntry sel t.meshes = none) :
    V2.updateClippingPlanes t = t := by
  simp [V2.updateClippingPlanes, hsel, hf]

theorem v0_updateClip_not_found (t : State) (sel : String)
    (hsel : t.selectedMeshId = some sel) (hf : findEntry sel t.meshes = none) :
    V0.updateClippingPlanes t = t := by
  simp [V0.updateClippingPlanes, hsel, hf]

theorem find_none_ids (i : String) (l : List Entry) (hf : findEntry i l = none) :
    ∀ e ∈ l, (e.id == i) = false := by
  rw [findEntry, List.find?_eq_none] at hf
  intro e he
  cases hbe : (e.id == i) with
  | false => rfl
  | true => exact absurd hbe (hf e he)

/-- Core of claim C2: any registry whose `(id, visible)` projections equal
those of the single-visibility sweep has exactly one visible record, the one
matching the selected id. -/
theorem select_single_visible_core (id : String) (s : State)
    (hnd : (s.meshes.map Entry.id).Nodup) (hmem : id ∈ s.meshes.map Entry.id)
    (L : List Entry)
    (hL : L.map (fun e => (e.id, e.mesh.visible)) =
      s.meshes.map (fun e => (e.id, (e.id == id)))) :
    L.countP (fun e => e.mesh.visible) = 1 ∧
    ∀ e ∈ L, e.mesh.visible = (e.id == id) := by
  constructor
  · have h1 : L.countP (fun e => e.mesh.visible) =
        (L.map (fun e => (e.id, e.mesh.visible))).countP (fun pr => pr.2) := by
      rw [List.countP_map]
      rfl
    rw [h1, hL, List.countP_map]
    show s.meshes.countP (fun e => e.id == id) = 1
    rw [countP_entries]
    exact countP_beq_one id _ hnd hmem
  · intro e he
    have hmm : (e.id, e.mesh.visible) ∈ s.meshes.map (fun o => (o.id, (o.id == id))) := by
      rw [← hL]
      exact List.mem_map_of_mem _ he
    rcases List.mem_map.1 hmm with ⟨o, ho, hoe⟩
    have h1 : o.id = e.id := congrArg Prod.fst hoe
    have h2 : (o.id == id) = e.mesh.visible := congrArg Prod.snd hoe
    rw [← h2, h1]

/-- Claim C2.  In both single-visibility variants, after `selectMesh(id)` on a
registry with unique ids containing `id`, exactly one record is visible and
every record's visibility equals the test `record.id == id`. -/
theorem C2_select_exactly_one_visible (s : State) (id : String)
    (hnd : (s.meshes.map Entry.id).Nodup)
    (hmem : id ∈ s.meshes.map Entry.id) :
    ((V2.selectMesh id s).meshes.countP (fun e => e.mesh.visible) = 1 ∧
      ∀ e ∈ (V2.selectMesh id s).meshes, e.mesh.visible = (e.id == id)) ∧
    ((V0.selectMesh id s).meshes.countP (fun e => e.mesh.visible) = 1 ∧
      ∀ e ∈ (V0.selectMesh id s).meshes, e.mesh.visible = (e.id == id)) := by
  constructor
  · refine select_single_visible_core id s hnd hmem _ ?_
    have ha := v2_updateClip_proj (fun e => (e.id, e.mesh.visible)) (fun pl e => rfl)
      { s with
        meshes := s.meshes.map (fun o =>
          { o with mesh := { o.mesh with visible := o.id == id } }),
        selectedMeshId := some id }
    refine Eq.trans ha ?_
    exact map_fuse _ _ _ (fun e => rfl) s.meshes
  · refine select_single_visible_core id s hnd hmem _ ?_
    have ha := v0_updateClip_proj (fun e => (e.id, e.mesh.visible)) (fun pl e => rfl)
      { s with
        meshes := s.meshes.map (fun o =>
          { o with mesh := { o.mesh with visible := o.id == id } }),
        selectedMeshId := some id }
    refine Eq.trans ha ?_
    exact map_fuse _ _ _ (fun e => rfl) s.meshes

/-- Witness for C2 at a concrete one-entry registry. -/
theorem C2_select_exactly_one_visible_witness :
    (sSel.meshes.map Entry.id).Nodup ∧ "a" ∈ sSel.meshes.map Entry.id ∧
    (V2.selectMesh "a" sSel).meshes.countP (fun e => e.mesh.visible) = 1 :=
  ⟨by decide, by decide,
    ((C2_select_exactly_one_visible sSel "a" (by decide) (by decide)).1).1⟩

/-- Claim C6 counterexample: selecting an id that is not in the registry is
not a pure visibility sweep — it overwrites the recorded selection with the
absent id. -/
theorem C6_counterexample :
    ("b" ∉ sSel.meshes.map Entry.id) ∧
    (V2.selectMesh "b" sSel).selectedMeshId ≠ sSel.selectedMeshId := by
  constructor
  · decide
  · have h : (V2.selectMesh "b" sSel).selectedMeshId = some "b" := v2_updateClip_sel _
    rw [h]
    decide

/-- Claim C6 (amended).  Selecting an absent id hides every mesh and records
the absent id as the current selection; the clipping configuration, the
sliders and every mesh's material (and all other record fields) are
unchanged — in both variants that guard the recompute behind the find. -/
theorem C6_select_absent_id (s : State) (id : String)
    (h : id ∉ s.meshes.map Entry.id) :
    V2.selectMesh id s =
      { s with
        meshes := s.meshes.map (fun e => { e with mesh := { e.mesh with visible := false } }),
        selectedMeshId := some id } ∧
    V0.selectMesh id s =
      { s with
        meshes := s.meshes.map (fun e => { e with mesh := { e.mesh with visible := false } }),
        selectedMeshId := some id } := by
  have hfalse : ∀ e ∈ s.meshes, (e.id == id) = false := by
    intro e he
    refine beq_eq_false_iff_ne.2 (fun hc => h ?_)
    exact hc ▸ List.mem_map_of_mem Entry.id he
  have hmapeq : s.meshes.map (fun o =>
        { o with mesh := { o.mesh with visible := o.id == id } }) =
      s.meshes.map (fun e => { e with mesh := { e.mesh with visible := false } }) :=
    List.map_congr_left (fun e he => by rw [hfalse e he])
  have hids : (s.meshes.map (fun o =>
        { o with mesh := { o.mesh with visible := (o.id == id) } })).map Entry.id =
      s.meshes.map Entry.id :=
    map_fuse _ _ _ (fun e => rfl) s.meshes
  have hfind : findEntry id (s.meshes.map (fun o =>
      { o with mesh := { o.mesh with visible := (o.id == id) } })) = none := by
    apply findEntry_eq_none_of_not_mem
    rw [hids]
    exact h
  constructor
  · have h2 : V2.selectMesh id s =
        { s with
          meshes := s.meshes.map (fun o =>
            { o with mesh := { o.mesh with visible := (o.id == id) } }),
          selectedMeshId := some id } :=
      v2_updateClip_not_found _ id rfl hfind
    rw [h2, hmapeq]
  · have h2 : V0.selectMesh id s =
        { s with
          meshes := s.meshes.map (fun o =>
            { o with mesh := { o.mesh with visible := (o.id == id) } }),
          selectedMeshId := some id } :=
      v0_updateClip_not_found _ id rfl hfind
    rw [h2, hmapeq]

/-- Witness for the amended C6 at a concrete registry and absent id. -/
theorem C6_select_absent_id_witness :
    V2.selectMesh "b" sSel =
      { sSel with
        meshes := sSel.meshes.map (fun e => { e with mesh := { e.mesh with visible := false } }),
        selectedMeshId := some "b" } :=
  (C6_select_absent_id sSel "b" (by decide)).1

/-- Claim C7.  The opacity setter writes the given value — any rational,
clamped by nothing — into exactly the selected record's material, leaves
every other record and all other state fields unchanged, and is a complete
no-op when nothing is selected; both variants have the same code. -/
theorem C7_setOpacity_exact_no_clamp (v : ℚ) (s : State) :
    (s.selectedMeshId = none →
      V2.setOpacityForSelected v s = s ∧ V0.dynamicSelectedOpacity v s = s) ∧
    (∀ i, s.selectedMeshId = some i → (s.meshes.map Entry.id).Nodup →
      V2.setOpacityForSelected v s =
        { s with meshes := s.meshes.map (fun e => if e.id == i then setMatOpacity v e else e) } ∧
      V0.dynamicSelectedOpacity v s =
        { s with meshes := s.meshes.map (fun e => if e.id == i then setMatOpacity v e else e) }) := by
  constructor
  · intro h
    constructor
    · simp [V2.setOpacityForSelected, h]
    · simp [V0.dynamicSelectedOpacity, V2.setOpacityForSelected, h]
  · intro i hi hnd
    have key : V2.setOpacityForSelected v s =
        { s with meshes := s.meshes.map (fun e => if e.id == i then setMatOpacity v e else e) } := by
      cases hf : findEntry i s.meshes with
      | none =>
        have hmi := map_ite_id i (setMatOpacity v) s.meshes (find_none_ids i s.meshes hf)
        have hs : V2.setOpacityForSelected v s = s := by
          simp [V2.setOpacityForSelected, hi, hf]
        rw [hs, hmi]
      | some o =>
        simp [V2.setOpacityForSelected, hi, hf,
          updateFirst_eq_map i (setMatOpacity v) s.meshes hnd]
    exact ⟨key, key⟩

/-- Witness for C7: an out-of-range value `3` passes through unclamped. -/
theorem C7_setOpacity_witness :
    V2.setOpacityForSelected 3 sSel =
      { sSel with
        meshes := sSel.meshes.map (fun e => if e.id == "a" then setMatOpacity 3 e else e) } :=
  ((C7_setOpacity_exact_no_clamp 3 sSel).2 "a" rfl (by decide)).1

/-- Claim C8 counterexample: with nothing selected, clicking a mesh's
per-item visibility button (first `main.js` variant) still mutates that
mesh's persistent `userData.visible` flag, so the operation is not a no-op
without a selection. -/
theorem C8_counterexample :
    s0.selectedMeshId = none ∧ V1.visBtnClick "a" s0 ≠ s0 := by
  decide

/-- Claim C8 (amended).  The static visibility toggle flips only the selected
record's visible flag (no-op without a selection, and with unique ids no
other record changes); the per-item button variant, however, always flips the
clicked record's persistent `userData` visibility flag — whatever the current
selection is, including when nothing or another mesh is selected — while it
flips the rendered flag only when the clicked mesh is the selection, leaving
every rendered visibility unchanged otherwise; records with other ids are
untouched. -/
theorem C8_toggleVisibility (s : State) :
    (s.selectedMeshId = none → V2.visBtnClick s = s) ∧
    (∀ i, s.selectedMeshId = some i → (s.meshes.map Entry.id).Nodup →
      V2.visBtnClick s =
        { s with meshes := s.meshes.map (fun e => if e.id == i then flipVisible e else e) }) ∧
    (∀ id,
      ((V1.visBtnClick id s).meshes.map (fun e => (e.id, e.mesh.userDataVisible)) =
        s.meshes.map (fun e =>
          (e.id, if e.id == id then !e.mesh.userDataVisible else e.mesh.userDataVisible))) ∧
      ((V1.visBtnClick id s).meshes.map (fun e => (e.id, e.mesh.visible)) =
        s.meshes.map (fun e =>
          (e.id, if e.id == id && s.selectedMeshId == some id then !e.mesh.visible
            else e.mesh.visible))) ∧
      (s.selectedMeshId ≠ some id →
        (V1.visBtnClick id s).meshes.map (fun e => e.mesh.visible) =
          s.meshes.map (fun e => e.mesh.visible)) ∧
      (∀ e ∈ s.meshes, (e.id == id) = false → e ∈ (V1.visBtnClick id s).meshes)) := by
  refine ⟨fun h => by simp [V2.visBtnClick, h], fun i hi hnd => ?_, fun id => ?_⟩
  · cases hf : findEntry i s.meshes with
    | none =>
      have hmi := map_ite_id i flipVisible s.meshes (find_none_ids i s.meshes hf)
      have hs : V2.visBtnClick s = s := by
        simp [V2.visBtnClick, hi, hf]
      rw [hs, hmi]
    | some o =>
      simp [V2.visBtnClick, hi, hf, updateFirst_eq_map i flipVisible s.meshes hnd]
  · refine ⟨?_, ?_, fun hne => ?_, fun e he hce => ?_⟩
    · refine map_fuse _ _ _ ?_ s.meshes
      intro e
      by_cases hbe : (e.id == id) = true
      · by_cases hsel : (s.selectedMeshId == some id) = true
        · simp [hbe, hsel]
        · simp [hbe, hsel]
      · simp [hbe]
    · refine map_fuse _ _ _ ?_ s.meshes
      intro e
      by_cases hbe : (e.id == id) = true
      · by_cases hsel : (s.selectedMeshId == some id) = true
        · simp [hbe, hsel]
        · simp [hbe, hsel]
      · simp [hbe]
    · have hself : (s.selectedMeshId == some id) = false := beq_eq_false_iff_ne.2 hne
      refine map_fuse _ _ _ ?_ s.meshes
      intro e
      by_cases hbe : (e.id == id) = true
      · simp [hbe, hself]
      · simp [hbe]
    · refine List.mem_map.2 ⟨e, he, ?_⟩
      simp [hce]

/-- Second sample registry entry, under id `"b"`. -/
def entryB : Entry := { id := "b", mesh := meshA, slider := none }

/-- A two-entry state whose current selection is `"b"`. -/
def sTwo : State :=
  { meshes := [entryA, entryB], selectedMeshId := some "b", clipping := clippingInit,
    sliderX := 0, sliderY := 0, sliderZ := 0 }

/-- Witness for the amended C8: the static toggle is a no-op without a
selection and flips exactly the selected record; clicking the per-item button
of mesh `"a"` while another mesh `"b"` is selected still flips `"a"`'s
persistent flag, and no rendered visibility changes. -/
theorem C8_toggleVisibility_witness :
    V2.visBtnClick s0 = s0 ∧
    V2.visBtnClick sSel =
      { sSel with
        meshes := sSel.meshes.map (fun e => if e.id == "a" then flipVisible e else e) } ∧
    sTwo.selectedMeshId ≠ some "a" ∧
    (V1.visBtnClick "a" sTwo).meshes.map (fun e => (e.id, e.mesh.userDataVisible)) =
      [("a", true), ("b", false)] ∧
    (V1.visBtnClick "a" sTwo).meshes.map (fun e => e.mesh.visible) =
      sTwo.meshes.map (fun e => e.mesh.visible) := by
  refine ⟨(C8_toggleVisibility s0).1 rfl,
    (C8_toggleVisibility sSel).2.1 "a" rfl (by decide), by decide, ?_, ?_⟩
  · rw [((C8_toggleVisibility sTwo).2.2 "a").1]
    decide
  · exact ((C8_toggleVisibility sTwo).2.2 "a").2.2.1 (by decide)

/-!  Claim C10: the per-mesh-flag variant. -/

/-- Claim C10.  In the first `main.js` variant, `selectMesh` sets each
record's rendered visibility to `id-match && userData.visible`; the persistent
flag is never initialised at registration, so a freshly registered mesh stays
invisible even immediately after `selectMesh` on its id, and becomes visible
once its per-item visibility button is pressed while it is selected. -/
theorem C10_fresh_mesh_needs_toggle (s : State) (id name : String) (bbox : Box3)
    (h : id ∉ s.meshes.map Entry.id) :
    (∀ t : State, (V1.selectMesh id t).meshes.map
        (fun e => (e.id, e.mesh.visible, e.mesh.userDataVisible)) =
      t.meshes.map (fun e =>
        (e.id, e.id == id && e.mesh.userDataVisible, e.mesh.userDataVisible))) ∧
    (∀ e ∈ (V1.selectMesh id (V1.handleFileUpload id name bbox s)).meshes,
      e.id = id → e.mesh.visible = false) ∧
    (∀ e ∈ (V1.visBtnClick id (V1.selectMesh id (V1.handleFileUpload id name bbox s))).meshes,
      e.id = id → e.mesh.visible = true ∧ e.mesh.userDataVisible = true) := by
  have h1 : ∀ t : State, (V1.selectMesh id t).meshes.map
      (fun e => (e.id, e.mesh.visible, e.mesh.userDataVisible)) =
      t.meshes.map (fun e =>
        (e.id, e.id == id && e.mesh.userDataVisible, e.mesh.userDataVisible)) := by
    intro t
    have ha := v1_updateClip_proj
      (fun e => (e.id, e.mesh.visible, e.mesh.userDataVisible)) (fun pl e => rfl)
      { t with
        meshes := t.meshes.map (fun o =>
          { o with
            mesh := { o.mesh with visible := o.id == id && o.mesh.userDataVisible },
            slider := o.slider.map (fun _ => o.mesh.material.opacity) }),
        selectedMeshId := some id }
    refine Eq.trans ha ?_
    exact map_fuse _ _ _ (fun e => rfl) t.meshes
  have hU : ∀ o ∈ (V1.handleFileUpload id name bbox s).meshes,
      o.id = id → o.mesh.userDataVisible = false := by
    intro o ho hid
    simp only [V1.handleFileUpload, V1.addMeshToList, List.mem_append, List.mem_singleton] at ho
    rcases ho with (ho | ho) | ho
    · exact absurd (hid ▸ List.mem_map_of_mem Entry.id ho) h
    · rw [ho]
    · rw [ho]
  have hL : ∀ o ∈ (V1.selectMesh id (V1.handleFileUpload id name bbox s)).meshes,
      o.id = id → o.mesh.visible = false ∧ o.mesh.userDataVisible = false := by
    intro o ho hid
    have hmem3 := List.mem_map_of_mem
      (fun e => (e.id, e.mesh.visible, e.mesh.userDataVisible)) ho
    rw [h1 (V1.handleFileUpload id name bbox s)] at hmem3
    rcases List.mem_map.1 hmem3 with ⟨u, hu, hu3⟩
    have huid : u.id = o.id := congrArg (fun p => p.1) hu3
    have huvis : (u.id == id && u.mesh.userDataVisible) = o.mesh.visible :=
      congrArg (fun p => p.2.1) hu3
    have huud : u.mesh.userDataVisible = o.mesh.userDataVisible :=
      congrArg (fun p => p.2.2) hu3
    have hud0 : u.mesh.userDataVisible = false := hU u hu (huid.trans hid)
    constructor
    · rw [← huvis, hud0, Bool.and_false]
    · rw [← huud, hud0]
  refine ⟨h1, fun e he hid => (hL e he hid).1, ?_⟩
  have hselL : (V1.selectMesh id (V1.handleFileUpload id name bbox s)).selectedMeshId =
      some id := v1_updateClip_sel _
  have h2 : (V1.visBtnClick id (V1.selectMesh id (V1.handleFileUpload id name bbox s))).meshes.map
      (fun e => (e.id, e.mesh.visible, e.mesh.userDataVisible)) =
      (V1.selectMesh id (V1.handleFileUpload id name bbox s)).meshes.map (fun e =>
        (e.id,
         if e.id == id then !e.mesh.visible else e.mesh.visible,
         if e.id == id then !e.mesh.userDataVisible else e.mesh.userDataVisible)) := by
    refine map_fuse _ _ _ ?_ _
    intro e
    by_cases hbe : (e.id == id) = true
    · simp [hbe, hselL]
    · simp [hbe]
  intro e he hid
  have hmem3 := List.mem_map_of_mem
    (fun e => (e.id, e.mesh.visible, e.mesh.userDataVisible)) he
  rw [h2] at hmem3
  rcases List.mem_map.1 hmem3 with ⟨o, ho, ho3⟩
  have hoid : o.id = e.id := congrArg (fun p => p.1) ho3
  have hobe : (o.id == id) = true := beq_iff_eq.2 (hoid.trans hid)
  have hovis : (if o.id == id then !o.mesh.visible else o.mesh.visible) = e.mesh.visible :=
    congrArg (fun p => p.2.1) ho3
  have houd : (if o.id == id then !o.mesh.userDataVisible else o.mesh.userDataVisible) =
      e.mesh.userDataVisible := congrArg (fun p => p.2.2) ho3
  rw [if_pos hobe] at hovis houd
  obtain ⟨hv0, hu0⟩ := hL o ho (hoid.trans hid)
  constructor
  · rw [← hovis, hv0]
    rfl
  · rw [← houd, hu0]
    rfl

/-- Concrete run of the C10 scenario: upload one mesh into the empty registry
and select it. -/
def c10state : State := V1.selectMesh "a" (V1.handleFileUpload "a" "m" box0 initState)

/-- The first registry record of the concrete C10 run. -/
def c10head : Entry := c10state.meshes.getD 0 entryA

/-- Witness for C10: in the concrete run the freshly registered record is in
the registry, matches the selected id, and is still invisible. -/
theorem C10_fresh_mesh_needs_toggle_witness :
    c10head ∈ c10state.meshes ∧ c10head.id = "a" ∧ c10head.mesh.visible = false :=
  ⟨by decide, by decide,
    (C10_fresh_mesh_needs_toggle initState "a" "m" box0 (by decide)).2.1 c10head
      (by decide) (by decide)⟩

/-!  Claim C4: camera framing. -/

theorem wf_boxUnion {a b : Box3} (ha : wfBox a) (hb : wfBox b) :
    wfBox (boxUnion a b) :=
  ⟨le_trans (min_le_left _ _) (le_trans ha.1 (le_max_left _ _)),
   le_trans (min_le_left _ _) (le_trans ha.2.1 (le_max_left _ _)),
   le_trans (min_le_left _ _) (le_trans ha.2.2 (le_max_left _ _))⟩

theorem wf_foldl_boxUnion :
    ∀ (bs : List Box3) (b : Box3), wfBox b → (∀ x ∈ bs, wfBox x) →
      wfBox (bs.foldl boxUnion b) := by
  intro bs
  induction bs with
  | nil => intro b hb _; exact hb
  | cons a rest ih =>
    intro b hb hx
    exact ih (boxUnion b a) (wf_boxUnion hb (hx a (List.mem_cons_self a rest)))
      (fun x hxx => hx x (List.mem_cons_of_mem a hxx))

theorem maxDim_nonneg {b : Box3} (hb : wfBox b) : 0 ≤ maxDim b :=
  le_trans (sub_nonneg.2 hb.1) (le_max_left _ _)

theorem map_bbox_visible (f : Entry → Bool) (l : List Entry) :
    (l.map (fun e => { e with mesh := { e.mesh with visible := f e } })).map
      (fun o => o.mesh.bbox) = l.map (fun o => o.mesh.bbox) :=
  map_fuse _ _ _ (fun e => rfl) l

/-- Claim C4.  `fitCameraToObjects` with the default margin `1.4`: an empty
registry yields the fixed pose (position `(0,0,250)`, target `(0,0,0)`); the
result ignores every record's visibility; and on a non-empty registry the
camera sits on the view axis through the union-box center, displaced by
exactly `max 50 ((D/2)/tanHalfFov * 1.4)` where `D` is the union box's
largest dimension, looking at the center. -/
theorem C4_fit_camera (t : ℚ) (ht : 0 < t) (l : List Entry)
    (hwf : ∀ e ∈ l, wfBox e.mesh.bbox) :
    fitCameraToObjects t (14/10) [] = { position := ⟨0, 0, 250⟩, target := ⟨0, 0, 0⟩ } ∧
    (∀ f : Entry → Bool,
      fitCameraToObjects t (14/10)
        (l.map (fun e => { e with mesh := { e.mesh with visible := f e } })) =
      fitCameraToObjects t (14/10) l) ∧
    (∀ e rest, l = e :: rest →
      fitCameraToObjects t (14/10) l =
        { position := ⟨(boxCenter (unionBBox e rest)).x, (boxCenter (unionBBox e rest)).y,
            (boxCenter (unionBBox e rest)).z +
              Max.max 50 (maxDim (unionBBox e rest) / 2 / t * (14/10))⟩,
          target := boxCenter (unionBBox e rest) }) := by
  refine ⟨rfl, fun f => ?_, fun e rest hl => ?_⟩
  · cases l with
    | nil => rfl
    | cons e rest =>
      have hb := map_bbox_visible f rest
      simp only [fitCameraToObjects, unionBBox, List.map_cons]
      rw [hb]
  · subst hl
    have hwfu : wfBox (unionBBox e rest) := by
      apply wf_foldl_boxUnion
      · exact hwf e (List.mem_cons_self e rest)
      · intro x hx
        rcases List.mem_map.1 hx with ⟨o, ho, rfl⟩
        exact hwf o (List.mem_cons_of_mem e ho)
    have hD : 0 ≤ maxDim (unionBBox e rest) := maxDim_nonneg hwfu
    have habs : |maxDim (unionBBox e rest) / 2 / t| = maxDim (unionBBox e rest) / 2 / t :=
      abs_of_nonneg (div_nonneg (div_nonneg hD (by norm_num)) ht.le)
    simp only [fitCameraToObjects]
    rw [habs, max_comm]

/-- Witness for C4 at a concrete one-entry registry: union box `box0` has
`D = 20`, the tangent term gives `14`, and the floor `50` wins. -/
theorem C4_fit_camera_witness :
    (0:ℚ) < 1 ∧
    fitCameraToObjects 1 (14/10) [entryA] =
      { position := ⟨0, 0, 50⟩, target := ⟨0, 0, 0⟩ } := by
  refine ⟨by norm_num, ?_⟩
  have h := (C4_fit_camera 1 (by norm_num) [entryA] (by decide)).2.2 entryA [] rfl
  rw [h]
  norm_num [unionBBox, boxCenter, boxSize, maxDim, entryA, meshA, box0, max_def]

/-!  Claim C9: the fixed-normal invariant. -/

theorem mem_ite_singleton {b : Prop} [Decidable b] {p q : Plane}
    (h : p ∈ (if b then [q] else [])) : p = q := by
  by_cases hb : b
  · rw [if_pos hb] at h
    exact List.mem_singleton.1 h
  · rw [if_neg hb] at h
    cases h

theorem v0_planesFor_normals (c : Clipping) (sx sy sz : ℚ) (ctr : Vec3) :
    ∀ p ∈ V0.planesFor c sx sy sz ctr,
      p.normal = ⟨-1, 0, 0⟩ ∨ p.normal = ⟨0, -1, 0⟩ ∨ p.normal = ⟨0, 0, -1⟩ := by
  intro p hp
  simp only [V0.planesFor, List.mem_append] at hp
  rcases hp with (hp | hp) | hp
  · refine Or.inl ?_
    rw [mem_ite_singleton hp]
    rfl
  · refine Or.inr (Or.inl ?_)
    rw [mem_ite_singleton hp]
    rfl
  · refine Or.inr (Or.inr ?_)
    rw [mem_ite_singleton hp]
    rfl

theorem getActive_normals (c : Clipping)
    (hx : c.x.plane.normal = ⟨-1, 0, 0⟩) (hy : c.y.plane.normal = ⟨0, -1, 0⟩)
    (hz : c.z.plane.normal = ⟨0, 0, -1⟩) :
    ∀ p ∈ getActiveClippingPlanes c,
      p.normal = ⟨-1, 0, 0⟩ ∨ p.normal = ⟨0, -1, 0⟩ ∨ p.normal = ⟨0, 0, -1⟩ := by
  intro p hp
  simp only [getActiveClippingPlanes, List.mem_append] at hp
  rcases hp with (hp | hp) | hp
  · refine Or.inl ?_
    rw [mem_ite_singleton hp]
    exact hx
  · refine Or.inr (Or.inl ?_)
    rw [mem_ite_singleton hp]
    exact hy
  · refine Or.inr (Or.inr ?_)
    rw [mem_ite_singleton hp]
    exact hz

theorem v0_clipAfter_normals (c : Clipping) (sx sy sz : ℚ) (ctr : Vec3)
    (hx : c.x.plane.normal = ⟨-1, 0, 0⟩) (hy : c.y.plane.normal = ⟨0, -1, 0⟩)
    (hz : c.z.plane.normal = ⟨0, 0, -1⟩) :
    (V0.clipAfter c sx sy sz ctr).x.plane.normal = ⟨-1, 0, 0⟩ ∧
    (V0.clipAfter c sx sy sz ctr).y.plane.normal = ⟨0, -1, 0⟩ ∧
    (V0.clipAfter c sx sy sz ctr).z.plane.normal = ⟨0, 0, -1⟩ := by
  refine ⟨?_, ?_, ?_⟩
  · by_cases h : c.x.enabled = true
    · simp [V0.clipAfter, h, V0.planeX, setFromNormalAndCoplanarPoint]
    · simp [V0.clipAfter, h, hx]
  · by_cases h : c.y.enabled = true
    · simp [V0.clipAfter, h, V0.planeY, setFromNormalAndCoplanarPoint]
    · simp [V0.clipAfter, h, hy]
  · by_cases h : c.z.enabled = true
    · simp [V0.clipAfter, h, V0.planeZ, setFromNormalAndCoplanarPoint]
    · simp [V0.clipAfter, h, hz]

theorem v0_recomputeAll_normals (sx sy sz : ℚ) :
    ∀ (l : List Entry) (c : Clipping),
      c.x.plane.normal = ⟨-1, 0, 0⟩ → c.y.plane.normal = ⟨0, -1, 0⟩ →
      c.z.plane.normal = ⟨0, 0, -1⟩ →
      ((V0.recomputeAll c sx sy sz l).2.x.plane.normal = ⟨-1, 0, 0⟩ ∧
       (V0.recomputeAll c sx sy sz l).2.y.plane.normal = ⟨0, -1, 0⟩ ∧
       (V0.recomputeAll c sx sy sz l).2.z.plane.normal = ⟨0, 0, -1⟩) ∧
      ∀ e ∈ (V0.recomputeAll c sx sy sz l).1, ∀ p ∈ e.mesh.material.clippingPlanes,
        p.normal = ⟨-1, 0, 0⟩ ∨ p.normal = ⟨0, -1, 0⟩ ∨ p.normal = ⟨0, 0, -1⟩ := by
  intro l
  induction l with
  | nil =>
    intro c hx hy hz
    exact ⟨⟨hx, hy, hz⟩, by intro e he; cases he⟩
  | cons a rest ih =>
    intro c hx hy hz
    obtain ⟨ha1, ha2, ha3⟩ := v0_clipAfter_normals c sx sy sz (boxCenter a.mesh.bbox) hx hy hz
    obtain ⟨hc', hm'⟩ := ih (V0.clipAfter c sx sy sz (boxCenter a.mesh.bbox)) ha1 ha2 ha3
    refine ⟨hc', ?_⟩
    intro e2 he2 p hp
    rcases List.mem_cons.1 he2 with he2 | he2
    · rw [he2] at hp
      exact v0_planesFor_normals c sx sy sz (boxCenter a.mesh.bbox) p hp
    · exact hm' e2 he2 p hp

theorem v0_updateClip_fixedNormals (s : State) (hs : fixedNormals s) :
    fixedNormals (V0.updateClippingPlanes s) := by
  obtain ⟨hx, hy, hz, hm⟩ := hs
  cases hsel : s.selectedMeshId with
  | some sel =>
    cases hf : findEntry sel s.meshes with
    | none =>
      rw [v0_updateClip_not_found s sel hsel hf]
      exact ⟨hx, hy, hz, hm⟩
    | some o =>
      have hstate : V0.updateClippingPlanes s =
          { s with
            meshes := updateFirst sel (setMatPlanes
              (V0.planesFor s.clipping s.sliderX s.sliderY s.sliderZ
                (boxCenter o.mesh.bbox))) s.meshes,
            clipping := V0.clipAfter s.clipping s.sliderX s.sliderY s.sliderZ
              (boxCenter o.mesh.bbox) } := by
        simp [V0.updateClippingPlanes, hsel, hf]
      rw [hstate]
      obtain ⟨ha1, ha2, ha3⟩ :=
        v0_clipAfter_normals s.clipping s.sliderX s.sliderY s.sliderZ
          (boxCenter o.mesh.bbox) hx hy hz
      refine ⟨ha1, ha2, ha3, ?_⟩
      intro e he p hp
      rcases mem_updateFirst sel _ s.meshes e he with he2 | ⟨a, ha, hae⟩
      · exact hm e he2 p hp
      · rw [hae] at hp
        exact v0_planesFor_normals s.clipping s.sliderX s.sliderY s.sliderZ
          (boxCenter o.mesh.bbox) p hp
  | none =>
    cases hml : s.meshes with
    | nil =>
      have hid : V0.updateClippingPlanes s = s := by
        simp [V0.updateClippingPlanes, hsel, hml]
      rw [hid]
      exact ⟨hx, hy, hz, hm⟩
    | cons a rest =>
      obtain ⟨⟨hc1, hc2, hc3⟩, hmm⟩ :=
        v0_recomputeAll_normals s.sliderX s.sliderY s.sliderZ s.meshes s.clipping hx hy hz
      have hstate : V0.updateClippingPlanes s =
          { s with
            meshes := (V0.recomputeAll s.clipping s.sliderX s.sliderY s.sliderZ s.meshes).1,
            clipping := (V0.recomputeAll s.clipping s.sliderX s.sliderY s.sliderZ s.meshes).2 } := by
        simp [V0.updateClippingPlanes, hsel, hml]
      rw [hstate]
      exact ⟨hc1, hc2, hc3, hmm⟩

theorem v0_selectMesh_fixedNormals (id : String) (s : State) (hs : fixedNormals s) :
    fixedNormals (V0.selectMesh id s) := by
  apply v0_updateClip_fixedNormals
  obtain ⟨hx, hy, hz, hm⟩ := hs
  refine ⟨hx, hy, hz, ?_⟩
  intro e he p hp
  rcases List.mem_map.1 he with ⟨o, ho, rfl⟩
  exact hm o ho p hp

theorem v0_upload_fixedNormals (id name : String) (bbox : Box3) (s : State)
    (hs : fixedNormals s) : fixedNormals (V0.handleFileUpload id name bbox s) := by
  obtain ⟨hx, hy, hz, hm⟩ := hs
  have hadd : fixedNormals (V0.addMeshToList id
      { name := name, bbox := bbox, visible := true, userDataVisible := false,
        material := V0.newMaterialNoClip } s) := by
    refine ⟨hx, hy, hz, ?_⟩
    intro e he p hp
    rcases List.mem_append.1 he with he | he
    · exact hm e he p hp
    · rw [List.mem_singleton.1 he] at hp
      cases hp
  have hsel := v0_selectMesh_fixedNormals id _ hadd
  refine ⟨rfl, rfl, rfl, ?_⟩
  intro e he p hp
  exact hsel.2.2.2 e he p hp

theorem v0_loadLocal_fixedNormals (id name : String) (bbox : Box3) (s : State)
    (hs : fixedNormals s) : fixedNormals (V0.loadLocalSTL id name bbox s) := by
  obtain ⟨hx, hy, hz, hm⟩ := hs
  refine ⟨hx, hy, hz, ?_⟩
  intro e he p hp
  rcases List.mem_append.1 he with he | he
  · rcases List.mem_append.1 he with he | he
    · exact hm e he p hp
    · rw [List.mem_singleton.1 he] at hp
      exact getActive_normals s.clipping hx hy hz p hp
  · rw [List.mem_singleton.1 he] at hp
    exact getActive_normals s.clipping hx hy hz p hp

theorem v2_visBtn_fixedNormals (s : State) (hs : fixedNormals s) :
    fixedNormals (V2.visBtnClick s) := by
  obtain ⟨hx, hy, hz, hm⟩ := hs
  cases hsel : s.selectedMeshId with
  | none =>
    have hid : V2.visBtnClick s = s := by simp [V2.visBtnClick, hsel]
    rw [hid]
    exact ⟨hx, hy, hz, hm⟩
  | some sel =>
    cases hf : findEntry sel s.meshes with
    | none =>
      have hid : V2.visBtnClick s = s := by simp [V2.visBtnClick, hsel, hf]
      rw [hid]
      exact ⟨hx, hy, hz, hm⟩
    | some o =>
      have hstate : V2.visBtnClick s =
          { s with meshes := updateFirst sel flipVisible s.meshes } := by
        simp [V2.visBtnClick, hsel, hf]
      rw [hstate]
      refine ⟨hx, hy, hz, ?_⟩
      intro e he p hp
      rcases mem_updateFirst sel flipVisible s.meshes e he with he2 | ⟨a, ha, hae⟩
      · exact hm e he2 p hp
      · rw [hae] at hp
        exact hm a ha p hp

theorem v2_setOpacity_fixedNormals (v : ℚ) (s : State) (hs : fixedNormals s) :
    fixedNormals (V2.setOpacityForSelected v s) := by
  obtain ⟨hx, hy, hz, hm⟩ := hs
  cases hsel : s.selectedMeshId with
  | none =>
    have hid : V2.setOpacityForSelected v s = s := by simp [V2.setOpacityForSelected, hsel]
    rw [hid]
    exact ⟨hx, hy, hz, hm⟩
  | some sel =>
    cases hf : findEntry sel s.meshes with
    | none =>
      have hid : V2.setOpacityForSelected v s = s := by
        simp [V2.setOpacityForSelected, hsel, hf]
      rw [hid]
      exact ⟨hx, hy, hz, hm⟩
    | some o =>
      have hstate : V2.setOpacityForSelected v s =
          { s with meshes := updateFirst sel (setMatOpacity v) s.meshes } := by
        simp [V2.setOpacityForSelected, hsel, hf]
      rw [hstate]
      refine ⟨hx, hy, hz, ?_⟩
      intro e he p hp
      rcases mem_updateFirst sel (setMatOpacity v) s.meshes e he with he2 | ⟨a, ha, hae⟩
      · exact hm e he2 p hp
      · rw [hae] at hp
        exact hm a ha p hp

theorem setAxisEnabled_planes (a : Axis) (b : Bool) (c : Clipping) :
    (setAxisEnabled a b c).x.plane = c.x.plane ∧
    (setAxisEnabled a b c).y.plane = c.y.plane ∧
    (setAxisEnabled a b c).z.plane = c.z.plane := by
  cases a <;> exact ⟨rfl, rfl, rfl⟩

theorem setAxisOffset_normals (a : Axis) (v : ℚ) (c : Clipping) :
    (setAxisOffset a v c).x.plane.normal = c.x.plane.normal ∧
    (setAxisOffset a v c).y.plane.normal = c.y.plane.normal ∧
    (setAxisOffset a v c).z.plane.normal = c.z.plane.normal := by
  cases a <;> exact ⟨rfl, rfl, rfl⟩

theorem applyOp_fixedNormals (s : State) (op : Op) (hs : fixedNormals s) :
    fixedNormals (applyOp s op) := by
  obtain ⟨hx, hy, hz, hm⟩ := hs
  cases op with
  | axisEnabled a b =>
    apply v0_updateClip_fixedNormals
    obtain ⟨h1, h2, h3⟩ := setAxisEnabled_planes a b s.clipping
    exact ⟨by rw [h1]; exact hx, by rw [h2]; exact hy, by rw [h3]; exact hz, hm⟩
  | axisOffset a v =>
    apply v0_updateClip_fixedNormals
    obtain ⟨h1, h2, h3⟩ := setAxisOffset_normals a v s.clipping
    have hmesh : (setSlider a v { s with clipping := setAxisOffset a v s.clipping }).meshes
        = s.meshes := by
      cases a <;> rfl
    have hclip : (setSlider a v { s with clipping := setAxisOffset a v s.clipping }).clipping
        = setAxisOffset a v s.clipping := by
      cases a <;> rfl
    refine ⟨?_, ?_, ?_, ?_⟩
    · rw [hclip, h1]
      exact hx
    · rw [hclip, h2]
      exact hy
    · rw [hclip, h3]
      exact hz
    · rw [hmesh]
      exact hm
  | select id => exact v0_selectMesh_fixedNormals id s ⟨hx, hy, hz, hm⟩
  | upload id name bbox => exact v0_upload_fixedNormals id name bbox s ⟨hx, hy, hz, hm⟩
  | loadLocal id name bbox => exact v0_loadLocal_fixedNormals id name bbox s ⟨hx, hy, hz, hm⟩
  | toggleVis => exact v2_visBtn_fixedNormals s ⟨hx, hy, hz, hm⟩
  | setOpacity v => exact v2_setOpacity_fixedNormals v s ⟨hx, hy, hz, hm⟩
  | recompute => exact v0_updateClip_fixedNormals s ⟨hx, hy, hz, hm⟩

/-- Claim C9.  Along every interaction sequence from the initial state —
registration (upload or local load), selection, enabling or disabling an
axis, moving an axis offset, recomputes, visibility toggles, opacity changes
— each axis's stored clipping plane keeps its fixed negative-axis unit
normal, and every plane applied to any material has one of those normals;
only offsets and enabled flags ever change. -/
theorem C9_fixed_plane_normals : ∀ ops : List Op, fixedNormals (run ops) := by
  have hgen : ∀ (l : List Op) (s : State), fixedNormals s → fixedNormals (l.foldl applyOp s) := by
    intro l
    induction l with
    | nil => intro s hs; exact hs
    | cons o rest ih =>
      intro s hs
      exact ih (applyOp s o) (applyOp_fixedNormals s o hs)
  intro ops
  exact hgen ops initState ⟨rfl, rfl, rfl, by intro e he; cases he⟩

end ModelViewer
